import Mathlib

set_option linter.unusedVariables false

/- Verification development for the visa-expiry notification batch job
(send_notifications.py of the crm repository).

The job is embedded shallowly:
* pure string manipulation (phone normalization, message formatting) is
  translated to Lean functions on String;
* the external world (database connectivity, the SELECT over customers,
  the WAHA HTTP gateway, the send_logs INSERT, the wall clock and the
  random pacing generator) is an explicit environment of oracles that the
  run consumes by candidate index, exactly at the program points where
  send_notifications.py performs the corresponding effect;
* dates are carried as their ISO YYYY-MM-DD strings, which is how the
  SQLite driver hands them to the script (no detect_types is configured,
  so visa_expiry_date arrives as TEXT and str(visa_expiry_date) is the
  stored string itself).
-/

/-- Character constants used by the embedding (written via code points). -/
def spaceChar : Char := Char.ofNat 32

/-- The plus sign removed by the phone normalization. -/
def plusChar : Char := Char.ofNat 43

/-- The hyphen removed by the phone normalization. -/
def hyphenChar : Char := Char.ofNat 45

/-- A single-quote string, used inside the fixed message template. -/
def apos : String := (Char.ofNat 39).toString

/-- A tab character as a string, used to build concrete inputs. -/
def tabStr : String := (Char.ofNat 9).toString

/-- Opening curly brace character (code point 123), the leading character of
any unsubstituted template placeholder. -/
def lbraceChar : Char := Char.ofNat 123

/-- A row of the customers table as selected by the batch job:
SELECT id, customer_name, visa_type, visa_expiry_date, country_code,
phone_number FROM customers.  country_code and phone_number are nullable
TEXT columns, hence Option String. -/
structure Customer where
  id : Nat
  customer_name : String
  visa_type : String
  visa_expiry_date : String
  country_code : Option String
  phone_number : Option String
deriving DecidableEq, Repr

/-- A row of the send_logs table as inserted by log_send_attempt:
INSERT INTO send_logs (customer_name, phone, message, status, sent_at). -/
structure SendLogEntry where
  customer_name : String
  phone : String
  message : String
  status : String
  sent_at : String
deriving DecidableEq, Repr

/-- Model of Python str.strip(): drop leading and trailing whitespace
(the script applies it to each phone component in main, lines 158 and 160). -/
def strip (s : String) : String :=
  ⟨((s.data.dropWhile Char.isWhitespace).reverse.dropWhile Char.isWhitespace).reverse⟩

/-- Model of the Python idiom customer_dict.get(key) or two lines 152-153:
a NULL column or an empty string both become the empty string. -/
def orEmpty : Option String → String
  | none => ""
  | some s => s

/-- Lines 155-160 of send_notifications.py: full_phone starts empty; when
country_code is truthy, str(country_code).strip() is appended; when
phone_number is truthy, str(phone_number).strip() is appended. -/
def full_phone (c : Customer) : String :=
  (if orEmpty c.country_code = "" then "" else strip (orEmpty c.country_code)) ++
  (if orEmpty c.phone_number = "" then "" else strip (orEmpty c.phone_number))

/-- Line 62: phone_number.replace(plus, empty).replace(space, empty)
.replace(hyphen, empty) — removing all occurrences of the three characters
is dropping each character that equals one of them. -/
def normalizePhone (s : String) : String :=
  ⟨s.data.filter fun ch => !(ch == plusChar || ch == spaceChar || ch == hyphenChar)⟩

/-- Line 63: the chat identifier sent to the gateway is the normalized
digits followed by the fixed individual-chat suffix. -/
def chat_id (phone_number : String) : String :=
  normalizePhone phone_number ++ "@c.us"

/-- Outcome of the one HTTP POST that send_whatsapp_message performs:
either a response with a status code and body text, or a transport-level
exception carrying str(e). -/
inductive HttpResult where
  | resp (status_code : Nat) (text : String)
  | exn (desc : String)
deriving DecidableEq, Repr

/-- Lines 58-92: classification of the gateway call outcome.
HTTP 200 yields (True, sent); any other status yields False with a label
built from the status code and response body; an exception anywhere in the
try block yields False with a label built from the exception text. -/
def send_whatsapp_message (phone_number message : String) (r : HttpResult) : Bool × String :=
  match r with
  | .resp status_code text =>
    if status_code = 200 then (true, "sent")
    else (false, "failed: WAHA API error: " ++ toString status_code ++ " - " ++ text)
  | .exn desc => (false, "error: Exception sending message: " ++ desc)

/-- Lines 94-106: log_send_attempt tries one INSERT into send_logs and
swallows any exception, so it contributes one row when the INSERT succeeds
and no row at all when it fails. -/
def log_send_attempt (ok : Bool) (customer_name phone message status sent_at : String) :
    List SendLogEntry :=
  if ok then [⟨customer_name, phone, message, status, sent_at⟩] else []

/-- Lines 30 and 178-183: FIXED_TEMPLATE.format(...) with the four named
placeholders substituted; the template text is fixed, so the result is this
concatenation. -/
def FIXED_TEMPLATE_render (customer_name visa_type visa_expiry_date today_date : String) :
    String :=
  "Dear " ++ customer_name ++ ", your " ++ visa_type ++ " visa would be expired on " ++
    visa_expiry_date ++ ", kindly renew it. Today" ++ apos ++ "s date: " ++ today_date

/-- The JSON payload of one gateway call: chatId, text and session
(lines 65-69). -/
structure GatewayCall where
  chatId : String
  text : String
  session : String
deriving DecidableEq, Repr

/-- The external world of one run.  dbOk models get_db_connection returning
a connection or None; selectOk models whether the SELECT over customers
raises inside the main try block; today is the calendar date
datetime.now(UAE_TZ).date() as a YYYY-MM-DD string; nowStr i is the
per-candidate datetime.now(UAE_TZ).strftime date string of line 176;
nowTs i is the datetime(now) timestamp of candidate i's INSERT; gw i is
the HTTP outcome of candidate i's gateway call (consulted only when the
call is made); logOk i is whether candidate i's send_logs INSERT succeeds;
delay i is the value random.uniform(6, 8) would produce after candidate i;
session is the WAHA_SESSION configuration value. -/
structure Env where
  dbOk : Bool
  selectOk : Bool
  today : String
  nowStr : Nat → String
  nowTs : Nat → String
  gw : Nat → HttpResult
  logOk : Nat → Bool
  delay : Nat → ℚ
  session : String

/-- The IANA name of the fixed business timezone (line 27). -/
def UAE_TZ : String := "Asia/Dubai"

/-- Observable trace of a run: the send_logs rows appended (in order), the
gateway calls made (in order), the pacing sleeps performed (in order), and
the three summary counters of lines 143-145. -/
structure RunState where
  log : List SendLogEntry
  calls : List GatewayCall
  delays : List ℚ
  sent_count : Nat
  failed_count : Nat
  skipped_count : Nat
deriving DecidableEq, Repr

/-- The state at loop entry: nothing logged, called, slept or counted. -/
def initState : RunState := ⟨[], [], [], 0, 0, 0⟩

/-- Lines 147-202, the per-customer loop.  last is customers[-1]; i is the
candidate's position, used to index the oracles.  The skip branch logs and
continues — in particular it bypasses the pacing block, which only the
non-skip branch reaches; the non-skip branch formats the message, calls the
gateway, logs the returned status, bumps a counter and, unless the row
equals the last row, sleeps for the drawn delay. -/
def runLoop (env : Env) (last : Customer) : List Customer → Nat → RunState → RunState
  | [], _, st => st
  | c :: rest, i, st =>
    if full_phone c = "" then
      runLoop env last rest (i + 1)
        { st with
          log := st.log ++ log_send_attempt (env.logOk i) c.customer_name ""
            "No phone number available" "skipped" (env.nowTs i),
          skipped_count := st.skipped_count + 1 }
    else
      let message := FIXED_TEMPLATE_render c.customer_name c.visa_type
        c.visa_expiry_date (env.nowStr i)
      let r := send_whatsapp_message (full_phone c) message (env.gw i)
      runLoop env last rest (i + 1)
        { st with
          calls := st.calls ++ [⟨chat_id (full_phone c), message, env.session⟩],
          log := st.log ++ log_send_attempt (env.logOk i) c.customer_name (full_phone c)
            message r.2 (env.nowTs i),
          sent_count := st.sent_count + (if r.1 then 1 else 0),
          failed_count := st.failed_count + (if r.1 then 0 else 1),
          delays := st.delays ++ (if c ≠ last then [env.delay i] else []) }

/-- Lines 126-133: SELECT ... FROM customers WHERE date(visa_expiry_date) =
str(today_uae).  On the YYYY-MM-DD strings the application stores, SQLite's
date() is the identity, so the criterion is string equality with today. -/
def selectCandidates (customers : List Customer) (today : String) : List Customer :=
  customers.filter fun c => c.visa_expiry_date = today

/-- Result of one invocation of main: abort with exit 1 before the loop
(database connection failure, or an exception at candidate selection), or a
completed run with its trace. -/
inductive RunOutcome where
  | dbConnectFailed
  | selectionFailed
  | completed (st : RunState)
deriving DecidableEq, Repr

/-- Lines 108-216: main.  today is computed once; a None connection exits;
an exception raised by the query exits; an empty candidate list returns
immediately; otherwise the loop runs over the candidates with
customers[-1] as the last row. -/
def mainRun (env : Env) (customers : List Customer) : RunOutcome :=
  if env.dbOk = false then .dbConnectFailed
  else if env.selectOk = false then .selectionFailed
  else
    match selectCandidates customers env.today with
    | [] => .completed initState
    | c :: rest =>
      .completed (runLoop env ((c :: rest).getLast (List.cons_ne_nil c rest))
        (c :: rest) 0 initState)

/-- The send_logs row that candidate c at position i gives rise to:
the skip row when the constructed phone is empty, otherwise the row holding
the rendered message and the gateway status. -/
def entryFor (env : Env) (i : Nat) (c : Customer) : SendLogEntry :=
  if full_phone c = "" then
    ⟨c.customer_name, "", "No phone number available", "skipped", env.nowTs i⟩
  else
    ⟨c.customer_name, full_phone c,
      FIXED_TEMPLATE_render c.customer_name c.visa_type c.visa_expiry_date (env.nowStr i),
      (send_whatsapp_message (full_phone c)
        (FIXED_TEMPLATE_render c.customer_name c.visa_type c.visa_expiry_date (env.nowStr i))
        (env.gw i)).2,
      env.nowTs i⟩

/-- The gateway call that candidate c at position i gives rise to when its
constructed phone is nonempty. -/
def callFor (env : Env) (i : Nat) (c : Customer) : GatewayCall :=
  ⟨chat_id (full_phone c),
    FIXED_TEMPLATE_render c.customer_name c.visa_type c.visa_expiry_date (env.nowStr i),
    env.session⟩

/-- The send_logs rows produced by processing the given candidates starting
at position i: one row per candidate whose INSERT succeeds, in order. -/
def logFrom (env : Env) : List Customer → Nat → List SendLogEntry
  | [], _ => []
  | c :: rest, i => (if env.logOk i then [entryFor env i c] else []) ++ logFrom env rest (i + 1)

/-- The gateway calls produced by processing the given candidates starting
at position i: one call per candidate with a nonempty constructed phone. -/
def callsFrom (env : Env) : List Customer → Nat → List GatewayCall
  | [], _ => []
  | c :: rest, i =>
    (if full_phone c = "" then [] else [callFor env i c]) ++ callsFrom env rest (i + 1)

/-- The pacing sleeps produced by processing the given candidates starting
at position i: one sleep per non-skipped candidate that differs from the
last row. -/
def delaysFrom (env : Env) (last : Customer) : List Customer → Nat → List ℚ
  | [], _ => []
  | c :: rest, i =>
    (if full_phone c = "" then [] else if c ≠ last then [env.delay i] else []) ++
      delaysFrom env last rest (i + 1)

/-- The log rows of a run outcome (empty for an aborted run). -/
def runLog : RunOutcome → List SendLogEntry
  | .completed st => st.log
  | _ => []

/-- The gateway calls of a run outcome (empty for an aborted run). -/
def runCalls : RunOutcome → List GatewayCall
  | .completed st => st.calls
  | _ => []

/-- The pacing sleeps of a run outcome (empty for an aborted run). -/
def runDelays : RunOutcome → List ℚ
  | .completed st => st.delays
  | _ => []

/- Concrete material shared by the witnesses and counterexamples below. -/

/-- A customer with a complete phone whose visa expires on the run's date. -/
def wAli : Customer := ⟨1, "Ali", "Employment", "2026-10-12", some "971", some "501234567"⟩

/-- A customer whose visa expires on a different date. -/
def wOther : Customer := ⟨2, "Bob", "Visit", "2027-01-01", some "971", some "555"⟩

/-- A customer with no phone data at all, expiring on the run's date. -/
def wNoPhone : Customer := ⟨3, "NoPhone", "Employment", "2026-10-12", none, none⟩

/-- A customer matching the spec scenario phone equal to the empty string and
country code NULL, expiring on the run's date. -/
def wOmar : Customer := ⟨4, "Omar", "Employment", "2026-10-12", none, some ""⟩

/-- A customer whose phone number carries a leading tab character. -/
def wSara : Customer := ⟨5, "Sara", "Visit", "2026-10-12", some "971", some (tabStr ++ "501234567")⟩

/-- A benign environment: all effects succeed, the gateway answers HTTP 200,
every drawn pacing value is 7. -/
def wEnv : Env :=
  { dbOk := true, selectOk := true, today := "2026-10-12",
    nowStr := fun _ => "2026-10-12", nowTs := fun _ => "2026-10-12 03:00:00",
    gw := fun _ => .resp 200 "OK", logOk := fun _ => true, delay := fun _ => 7,
    session := "default" }

/-- The message the benign run renders for wAli. -/
def wMsg : String := FIXED_TEMPLATE_render "Ali" "Employment" "2026-10-12" "2026-10-12"

/-- The trace of the benign run over [wAli, wOther]: wOther is not selected,
wAli is messaged successfully and, being last, is followed by no sleep. -/
def wSt : RunState :=
  { log := [⟨"Ali", "971501234567", wMsg, "sent", "2026-10-12 03:00:00"⟩],
    calls := [⟨"971501234567@c.us", wMsg, "default"⟩],
    delays := [], sent_count := 1, failed_count := 0, skipped_count := 0 }

/-- The skip row the benign run writes for wNoPhone. -/
def wSkipEntry : SendLogEntry :=
  ⟨"NoPhone", "", "No phone number available", "skipped", "2026-10-12 03:00:00"⟩

/-- The sent row the benign run writes for wAli. -/
def wAliEntry : SendLogEntry :=
  ⟨"Ali", "971501234567", wMsg, "sent", "2026-10-12 03:00:00"⟩

/-- The trace of the benign run over [wNoPhone, wAli]: one skipped and one
messaged candidate, no sleep (the skip branch bypasses pacing and wAli is
last). -/
def wStMix : RunState :=
  { log := [wSkipEntry, wAliEntry],
    calls := [⟨"971501234567@c.us", wMsg, "default"⟩],
    delays := [], sent_count := 1, failed_count := 0, skipped_count := 1 }

/-- Another complete-phone customer expiring on the run's date. -/
def wNoor : Customer := ⟨6, "Noor", "Visit", "2026-10-12", some "971", some "509999999"⟩

/-- An environment whose gateway call for the first candidate raises a
transport exception; later calls succeed. -/
def wEnvExn : Env :=
  { wEnv with gw := fun i => if i = 0 then .exn "Connection refused" else .resp 200 "OK" }

/-- An environment whose send_logs INSERT fails for the first candidate and
succeeds for the rest. -/
def wEnvLogFail : Env := { wEnv with logOk := fun i => i != 0 }

/- Basic string facts used throughout. -/

lemma string_append_data (s t : String) : (s ++ t).data = s.data ++ t.data := rfl

lemma string_append_length (s t : String) : (s ++ t).length = s.length + t.length := by
  show (s.data ++ t.data).length = s.data.length + t.data.length
  exact List.length_append _ _

lemma strip_empty : strip "" = "" := rfl

/- The two conditional appends of main's full_phone construction collapse to
an unconditional concatenation of the stripped components, because stripping
the empty string is the empty string. -/

lemma full_phone_eq (c : Customer) :
    full_phone c = strip (orEmpty c.country_code) ++ strip (orEmpty c.phone_number) := by
  unfold full_phone
  by_cases h1 : orEmpty c.country_code = "" <;> by_cases h2 : orEmpty c.phone_number = "" <;>
    simp [h1, h2, strip_empty]

/- Trace characterization of the loop: the rows, calls and sleeps a run of
the loop appends are exactly those described by logFrom, callsFrom and
delaysFrom. -/

lemma runLoop_log (env : Env) (last : Customer) :
    ∀ (cands : List Customer) (i : Nat) (st : RunState),
      (runLoop env last cands i st).log = st.log ++ logFrom env cands i := by
  intro cands
  induction cands with
  | nil => intro i st; simp [runLoop, logFrom]
  | cons c rest ih =>
    intro i st
    by_cases h : full_phone c = "" <;>
      simp [runLoop, logFrom, h, ih, entryFor, log_send_attempt, List.append_assoc]

lemma runLoop_calls (env : Env) (last : Customer) :
    ∀ (cands : List Customer) (i : Nat) (st : RunState),
      (runLoop env last cands i st).calls = st.calls ++ callsFrom env cands i := by
  intro cands
  induction cands with
  | nil => intro i st; simp [runLoop, callsFrom]
  | cons c rest ih =>
    intro i st
    by_cases h : full_phone c = "" <;>
      simp [runLoop, callsFrom, h, ih, callFor, List.append_assoc]

lemma runLoop_delays (env : Env) (last : Customer) :
    ∀ (cands : List Customer) (i : Nat) (st : RunState),
      (runLoop env last cands i st).delays = st.delays ++ delaysFrom env last cands i := by
  intro cands
  induction cands with
  | nil => intro i st; simp [runLoop, delaysFrom]
  | cons c rest ih =>
    intro i st
    by_cases h : full_phone c = ""
    · simp [runLoop, delaysFrom, h, ih]
    · by_cases hl : c = last
      · subst hl
        simp [runLoop, delaysFrom, h, ih]
      · simp [runLoop, delaysFrom, h, hl, ih, List.append_assoc]

/- Case analysis of mainRun on a completed run. -/

lemma mainRun_completed (env : Env) (customers : List Customer) (st : RunState)
    (hrun : mainRun env customers = .completed st) :
    env.dbOk = true ∧ env.selectOk = true ∧
      (selectCandidates customers env.today = [] ∧ st = initState ∨
        ∃ c rest, selectCandidates customers env.today = c :: rest ∧
          st = runLoop env ((c :: rest).getLast (List.cons_ne_nil c rest))
            (c :: rest) 0 initState) := by
  by_cases hdb : env.dbOk = false
  · simp [mainRun, hdb] at hrun
  · by_cases hsel : env.selectOk = false
    · simp [mainRun, hdb, hsel] at hrun
    · refine ⟨by simpa using hdb, by simpa using hsel, ?_⟩
      cases hc : selectCandidates customers env.today with
      | nil =>
        left
        simp [mainRun, hdb, hsel, hc] at hrun
        exact ⟨rfl, hrun.symm⟩
      | cons c rest =>
        right
        refine ⟨c, rest, rfl, ?_⟩
        simp [mainRun, hdb, hsel, hc] at hrun
        exact hrun.symm

lemma mainRun_log (env : Env) (customers : List Customer) (st : RunState)
    (hrun : mainRun env customers = .completed st) :
    st.log = logFrom env (selectCandidates customers env.today) 0 := by
  rcases mainRun_completed env customers st hrun with ⟨-, -, hnil | ⟨c, rest, hc, hst⟩⟩
  · rw [hnil.2, hnil.1]; simp [initState, logFrom]
  · rw [hc, hst, runLoop_log]; simp [initState]

lemma mainRun_calls (env : Env) (customers : List Customer) (st : RunState)
    (hrun : mainRun env customers = .completed st) :
    st.calls = callsFrom env (selectCandidates customers env.today) 0 := by
  rcases mainRun_completed env customers st hrun with ⟨-, -, hnil | ⟨c, rest, hc, hst⟩⟩
  · rw [hnil.2, hnil.1]; simp [initState, callsFrom]
  · rw [hc, hst, runLoop_calls]; simp [initState]

/- Origin of trace elements: every logged row and every gateway call stems
from some candidate. -/

lemma mem_logFrom (env : Env) :
    ∀ (cands : List Customer) (i : Nat) (e : SendLogEntry),
      e ∈ logFrom env cands i →
        ∃ j c, c ∈ cands ∧ env.logOk j = true ∧ e = entryFor env j c := by
  intro cands
  induction cands with
  | nil => intro i e he; simp [logFrom] at he
  | cons c rest ih =>
    intro i e he
    rw [logFrom, List.mem_append] at he
    rcases he with he | he
    · by_cases h : env.logOk i = true
      · simp [h] at he
        exact ⟨i, c, List.mem_cons_self c rest, h, he⟩
      · simp [h] at he
    · obtain ⟨j, c', hc', hok, he'⟩ := ih (i + 1) e he
      exact ⟨j, c', List.mem_cons_of_mem c hc', hok, he'⟩

lemma mem_callsFrom (env : Env) :
    ∀ (cands : List Customer) (i : Nat) (g : GatewayCall),
      g ∈ callsFrom env cands i →
        ∃ j c, c ∈ cands ∧ ¬ full_phone c = "" ∧ g = callFor env j c := by
  intro cands
  induction cands with
  | nil => intro i g hg; simp [callsFrom] at hg
  | cons c rest ih =>
    intro i g hg
    rw [callsFrom, List.mem_append] at hg
    rcases hg with hg | hg
    · by_cases h : full_phone c = ""
      · simp [h] at hg
      · simp [h] at hg
        exact ⟨i, c, List.mem_cons_self c rest, h, hg⟩
    · obtain ⟨j, c', hc', hfp, hg'⟩ := ih (i + 1) g hg
      exact ⟨j, c', List.mem_cons_of_mem c hc', hfp, hg'⟩

lemma mem_delaysFrom (env : Env) (last : Customer) :
    ∀ (cands : List Customer) (i : Nat) (q : ℚ),
      q ∈ delaysFrom env last cands i → ∃ j, q = env.delay j := by
  intro cands
  induction cands with
  | nil => intro i q hq; simp [delaysFrom] at hq
  | cons c rest ih =>
    intro i q hq
    rw [delaysFrom, List.mem_append] at hq
    rcases hq with hq | hq
    · by_cases h : full_phone c = ""
      · simp [h] at hq
      · by_cases hl : c = last
        · simp [h, hl] at hq
        · simp [h, hl] at hq
          exact ⟨i, hq⟩
    · exact ih (i + 1) q hq

/- Trace lengths. -/

lemma logFrom_length (env : Env) (hlog : ∀ i, env.logOk i = true) :
    ∀ (cands : List Customer) (i : Nat), (logFrom env cands i).length = cands.length := by
  intro cands
  induction cands with
  | nil => intro i; simp [logFrom]
  | cons c rest ih => intro i; simp [logFrom, hlog, ih]

lemma callsFrom_length (env : Env) :
    ∀ (cands : List Customer) (i : Nat),
      (callsFrom env cands i).length = cands.countP fun c => !(full_phone c == "") := by
  intro cands
  induction cands with
  | nil => intro i; simp [callsFrom]
  | cons c rest ih =>
    intro i
    rw [callsFrom, List.length_append, List.countP_cons, ih]
    by_cases h : full_phone c = "" <;> simp [h] <;> omega

/- Counting the pacing sleeps.  First unconditionally: one sleep per
candidate with a nonempty phone that differs from the designated last row;
then, when the candidates are pairwise distinct and the designated row is
the actual last element, that count is the count of non-skipped candidates
among all but the last. -/

lemma delaysFrom_countP (env : Env) (last : Customer) :
    ∀ (cands : List Customer) (i : Nat),
      (delaysFrom env last cands i).length =
        cands.countP fun c => !(full_phone c == "") && !(c == last) := by
  intro cands
  induction cands with
  | nil => intro i; simp [delaysFrom]
  | cons c rest ih =>
    intro i
    rw [delaysFrom, List.length_append, List.countP_cons, ih]
    by_cases h : full_phone c = ""
    · simp [h]
    · by_cases hl : c = last
      · simp [h, hl]
      · simp [h, hl]
        omega

lemma countP_getLast_nodup (p : Customer → Bool) :
    ∀ (cands : List Customer) (h : cands ≠ []), cands.Nodup →
      (cands.countP fun x => p x && !(x == cands.getLast h)) =
        cands.dropLast.countP p := by
  intro cands
  induction cands with
  | nil => intro h; exact absurd rfl h
  | cons c rest ih =>
    intro h hnd
    rw [List.nodup_cons] at hnd
    cases rest with
    | nil => simp [List.countP_cons]
    | cons d rest2 =>
      have hLmem : (d :: rest2).getLast (List.cons_ne_nil d rest2) ∈ d :: rest2 :=
        List.getLast_mem _
      have hgl : (c :: d :: rest2).getLast h =
          (d :: rest2).getLast (List.cons_ne_nil d rest2) :=
        List.getLast_cons_cons c d rest2
      have hcl : ¬ c = (d :: rest2).getLast (List.cons_ne_nil d rest2) := by
        intro hEq
        exact hnd.1 (hEq ▸ hLmem)
      rw [List.countP_cons, hgl, ih (List.cons_ne_nil d rest2) hnd.2,
        List.dropLast_cons₂, List.countP_cons]
      have hb : (c == (d :: rest2).getLast (List.cons_ne_nil d rest2)) = false := by
        simpa using hcl
      simp [hb]

lemma dropLast_of_short (l : List Customer) (hl : l.length ≤ 1) : l.dropLast = [] := by
  cases l with
  | nil => rfl
  | cons a t =>
    cases t with
    | nil => rfl
    | cons b t2 => simp [List.length_cons] at hl

/-- A character is not in an append when it is in neither part. -/
lemma not_mem_append {x : Char} {l1 l2 : List Char} (h1 : x ∉ l1) (h2 : x ∉ l2) :
    x ∉ l1 ++ l2 := by
  simp [List.mem_append, h1, h2]

/-- The rendered template contains no opening brace when none of the four
substituted values does — its fixed segments contain none. -/
lemma lbrace_not_mem_render (a b c d : String)
    (h1 : lbraceChar ∉ a.data) (h2 : lbraceChar ∉ b.data)
    (h3 : lbraceChar ∉ c.data) (h4 : lbraceChar ∉ d.data) :
    lbraceChar ∉ (FIXED_TEMPLATE_render a b c d).data := by
  rw [FIXED_TEMPLATE_render]
  simp only [string_append_data]
  have nA : lbraceChar ∉ ("Dear " : String).data := by decide
  have nB : lbraceChar ∉ (", your " : String).data := by decide
  have nC : lbraceChar ∉ (" visa would be expired on " : String).data := by decide
  have nD : lbraceChar ∉ (", kindly renew it. Today" : String).data := by decide
  have nap : lbraceChar ∉ apos.data := by decide
  have nE : lbraceChar ∉ ("s date: " : String).data := by decide
  have p1 := not_mem_append nA h1
  have p2 := not_mem_append p1 nB
  have p3 := not_mem_append p2 h2
  have p4 := not_mem_append p3 nC
  have p5 := not_mem_append p4 h3
  have p6 := not_mem_append p5 nD
  have p7 := not_mem_append p6 nap
  have p8 := not_mem_append p7 nE
  exact not_mem_append p8 h4

/-- C1: on a completed run in which every send_logs INSERT succeeds, the
number of rows appended to the send log equals the number of selected
candidates — exactly one row per candidate, whatever the branch taken. -/
theorem c1_exactly_one_log_per_candidate (env : Env) (customers : List Customer)
    (st : RunState) (hlog : ∀ i, env.logOk i = true)
    (hrun : mainRun env customers = .completed st) :
    st.log.length = (selectCandidates customers env.today).length := by
  rw [mainRun_log env customers st hrun, logFrom_length env hlog]

/-- Witness for C1 at a concrete benign run. -/
theorem c1_witness : wSt.log.length = (selectCandidates [wAli, wOther] wEnv.today).length :=
  c1_exactly_one_log_per_candidate wEnv [wAli, wOther] wSt (fun _ => rfl) (by decide)

/-- C2: a completed run selects exactly the customers whose stored expiry
date equals today in the Asia/Dubai timezone (env.today); a customer with a
different expiry date is not selected, and the whole log and call trace is
determined by the selected candidates alone. -/
theorem c2_selection_today_only (env : Env) (customers : List Customer) (st : RunState)
    (hrun : mainRun env customers = .completed st) :
    (∀ c ∈ customers, c.visa_expiry_date ≠ env.today →
      c ∉ selectCandidates customers env.today) ∧
    st.log = logFrom env (selectCandidates customers env.today) 0 ∧
    st.calls = callsFrom env (selectCandidates customers env.today) 0 := by
  refine ⟨?_, mainRun_log env customers st hrun, mainRun_calls env customers st hrun⟩
  intro c hc hne hmem
  rw [selectCandidates, List.mem_filter] at hmem
  exact hne (by simpa using hmem.2)

/-- Witness for C2 at a concrete run holding one matching and one
non-matching customer. -/
theorem c2_witness :
    (∀ c ∈ [wAli, wOther], c.visa_expiry_date ≠ wEnv.today →
      c ∉ selectCandidates [wAli, wOther] wEnv.today) ∧
    wSt.log = logFrom wEnv (selectCandidates [wAli, wOther] wEnv.today) 0 ∧
    wSt.calls = callsFrom wEnv (selectCandidates [wAli, wOther] wEnv.today) 0 :=
  c2_selection_today_only wEnv [wAli, wOther] wSt (by decide)

/-- C3: HTTP 200 yields exactly the label sent; a non-200 response yields a
non-sent label that carries the status code digits and the response body; a
transport exception yields a non-sent label that carries the exception
description. -/
theorem c3_gateway_classification (pn msg text desc : String) (code : Nat)
    (hcode : code ≠ 200) :
    send_whatsapp_message pn msg (.resp 200 text) = (true, "sent") ∧
    send_whatsapp_message pn msg (.resp code text) =
      (false, "failed: WAHA API error: " ++ toString code ++ " - " ++ text) ∧
    "failed: WAHA API error: " ++ toString code ++ " - " ++ text ≠ "sent" ∧
    (toString code).data <:+:
      ("failed: WAHA API error: " ++ toString code ++ " - " ++ text).data ∧
    text.data <:+: ("failed: WAHA API error: " ++ toString code ++ " - " ++ text).data ∧
    send_whatsapp_message pn msg (.exn desc) =
      (false, "error: Exception sending message: " ++ desc) ∧
    "error: Exception sending message: " ++ desc ≠ "sent" ∧
    desc.data <:+: ("error: Exception sending message: " ++ desc).data := by
  refine ⟨by simp [send_whatsapp_message], by simp [send_whatsapp_message, hcode], ?_, ?_, ?_,
    by simp [send_whatsapp_message], ?_, ?_⟩
  · intro hEq
    have hlen := congrArg String.length hEq
    rw [string_append_length, string_append_length, string_append_length] at hlen
    have h1 : ("failed: WAHA API error: ").length = 24 := rfl
    have h2 : (" - ").length = 3 := rfl
    have h3 : ("sent").length = 4 := rfl
    omega
  · refine ⟨("failed: WAHA API error: ").data, (" - ").data ++ text.data, ?_⟩
    rw [string_append_data, string_append_data, string_append_data]
    simp [List.append_assoc]
  · refine ⟨("failed: WAHA API error: ").data ++ (toString code).data ++ (" - ").data, [], ?_⟩
    rw [string_append_data, string_append_data, string_append_data]
    simp [List.append_assoc]
  · intro hEq
    have hlen := congrArg String.length hEq
    rw [string_append_length] at hlen
    have h1 : ("error: Exception sending message: ").length = 34 := rfl
    have h2 : ("sent").length = 4 := rfl
    omega
  · refine ⟨("error: Exception sending message: ").data, [], ?_⟩
    rw [string_append_data]
    simp

/-- Witness for C3 at a concrete non-200 code, body and exception text. -/
theorem c3_witness :
    ((500 : Nat) ≠ 200) ∧
    (send_whatsapp_message "971501234567" "hello" (.resp 200 "OK") = (true, "sent") ∧
    send_whatsapp_message "971501234567" "hello" (.resp 500 "OK") =
      (false, "failed: WAHA API error: " ++ toString (500 : Nat) ++ " - " ++ "OK") ∧
    "failed: WAHA API error: " ++ toString (500 : Nat) ++ " - " ++ "OK" ≠ "sent" ∧
    (toString (500 : Nat)).data <:+:
      ("failed: WAHA API error: " ++ toString (500 : Nat) ++ " - " ++ "OK").data ∧
    ("OK" : String).data <:+:
      ("failed: WAHA API error: " ++ toString (500 : Nat) ++ " - " ++ "OK").data ∧
    send_whatsapp_message "971501234567" "hello" (.exn "timed out") =
      (false, "error: Exception sending message: " ++ "timed out") ∧
    "error: Exception sending message: " ++ "timed out" ≠ "sent" ∧
    ("timed out" : String).data <:+:
      ("error: Exception sending message: " ++ "timed out").data) :=
  ⟨by decide, c3_gateway_classification "971501234567" "hello" "OK" "timed out" 500 (by decide)⟩

/-- C4: on a completed run with all INSERTs succeeding, gateway calls are
made exactly for selected candidates whose constructed phone is nonempty;
the log covers every selected candidate; and a customer whose country code
and phone number are both NULL or empty has an empty constructed phone and
gives rise to the skip row (status skipped, no rendered message). -/
theorem c4_both_empty_skipped (env : Env) (customers : List Customer) (st : RunState)
    (hlog : ∀ i, env.logOk i = true) (hrun : mainRun env customers = .completed st) :
    st.calls.length =
      ((selectCandidates customers env.today).countP fun c => !(full_phone c == "")) ∧
    st.log.length = (selectCandidates customers env.today).length ∧
    ∀ c : Customer, orEmpty c.country_code = "" → orEmpty c.phone_number = "" →
      full_phone c = "" ∧
      ∀ i, entryFor env i c =
        ⟨c.customer_name, "", "No phone number available", "skipped", env.nowTs i⟩ := by
  refine ⟨?_, ?_, ?_⟩
  · rw [mainRun_calls env customers st hrun, callsFrom_length]
  · rw [mainRun_log env customers st hrun, logFrom_length env hlog]
  · intro c h1 h2
    have hfp : full_phone c = "" := by
      rw [full_phone_eq, h1, h2]
      rfl
    exact ⟨hfp, fun i => by simp [entryFor, hfp]⟩

/-- Witness for C4 at a concrete run holding a customer with no phone data. -/
theorem c4_witness :
    (runCalls (mainRun wEnv [wNoPhone, wAli])).length =
      ((selectCandidates [wNoPhone, wAli] wEnv.today).countP fun c => !(full_phone c == "")) ∧
    (runLog (mainRun wEnv [wNoPhone, wAli])).length =
      (selectCandidates [wNoPhone, wAli] wEnv.today).length ∧
    ∀ c : Customer, orEmpty c.country_code = "" → orEmpty c.phone_number = "" →
      full_phone c = "" ∧
      ∀ i, entryFor wEnv i c =
        ⟨c.customer_name, "", "No phone number available", "skipped", wEnv.nowTs i⟩ := by
  have h := c4_both_empty_skipped wEnv [wNoPhone, wAli]
    { log := [⟨"NoPhone", "", "No phone number available", "skipped", "2026-10-12 03:00:00"⟩,
        ⟨"Ali", "971501234567", wMsg, "sent", "2026-10-12 03:00:00"⟩],
      calls := [⟨"971501234567@c.us", wMsg, "default"⟩],
      delays := [], sent_count := 1, failed_count := 0, skipped_count := 1 }
    (fun _ => rfl) (by decide)
  exact ⟨by decide, by decide, h.2.2⟩

/-- C5 counterexample: a completed run whose single log row was written by
the skip branch; its message field is the fixed skip text, not the rendered
template for that customer's snapshot fields and today's date. -/
theorem c5_counterexample :
    runLog (mainRun wEnv [wOmar]) =
      [⟨"Omar", "", "No phone number available", "skipped", "2026-10-12 03:00:00"⟩] ∧
    ("No phone number available" : String) ≠
      FIXED_TEMPLATE_render "Omar" "Employment" "2026-10-12" "2026-10-12" :=
  ⟨by decide, by decide⟩

/-- C5 (amended): every log row of a completed run either stems from the
skip branch — its message field is the fixed text No phone number available,
which contains no placeholder — or stems from a non-skipped candidate and
equals the fixed template with all four placeholders substituted from that
candidate's snapshot fields and that iteration's today string; in the
latter case the message contains no opening brace (hence no unsubstituted
placeholder) whenever the substituted values contain none. -/
theorem c5_message_template_amended (env : Env) (customers : List Customer) (st : RunState)
    (hrun : mainRun env customers = .completed st) :
    ∀ e ∈ st.log,
      (e.message = "No phone number available" ∧ e.status = "skipped" ∧
        lbraceChar ∉ e.message.data) ∨
      (∃ i c, c ∈ selectCandidates customers env.today ∧ ¬ full_phone c = "" ∧
        e.message = FIXED_TEMPLATE_render c.customer_name c.visa_type c.visa_expiry_date
          (env.nowStr i) ∧
        (lbraceChar ∉ c.customer_name.data → lbraceChar ∉ c.visa_type.data →
          lbraceChar ∉ c.visa_expiry_date.data → lbraceChar ∉ (env.nowStr i).data →
          lbraceChar ∉ e.message.data)) := by
  intro e he
  rw [mainRun_log env customers st hrun] at he
  obtain ⟨j, c, hc, hok, he'⟩ := mem_logFrom env _ 0 e he
  by_cases hfp : full_phone c = ""
  · left
    subst he'
    refine ⟨by simp [entryFor, hfp], by simp [entryFor, hfp], ?_⟩
    simp only [entryFor, hfp, if_pos]
    decide
  · right
    refine ⟨j, c, hc, hfp, ?_, ?_⟩
    · subst he'
      simp [entryFor, hfp]
    · intro h1 h2 h3 h4
      subst he'
      simp only [entryFor, hfp, if_neg, not_false_eq_true]
      exact lbrace_not_mem_render _ _ _ _ h1 h2 h3 h4

/-- Witness for C5 (amended) at a concrete run with one skipped and one
messaged candidate, instantiated at the messaged candidate's row. -/
theorem c5_witness :
    (wAliEntry.message = "No phone number available" ∧ wAliEntry.status = "skipped" ∧
      lbraceChar ∉ wAliEntry.message.data) ∨
    (∃ i c, c ∈ selectCandidates [wNoPhone, wAli] wEnv.today ∧ ¬ full_phone c = "" ∧
      wAliEntry.message = FIXED_TEMPLATE_render c.customer_name c.visa_type c.visa_expiry_date
        (wEnv.nowStr i) ∧
      (lbraceChar ∉ c.customer_name.data → lbraceChar ∉ c.visa_type.data →
        lbraceChar ∉ c.visa_expiry_date.data → lbraceChar ∉ (wEnv.nowStr i).data →
        lbraceChar ∉ wAliEntry.message.data)) :=
  c5_message_template_amended wEnv [wNoPhone, wAli] wStMix (by decide) wAliEntry (by decide)

/-- C6 counterexample: a run over two selected candidates (the first
skipped for lack of a phone) performs zero pacing sleeps, not N minus 1 = 1:
the skip branch continues past the pacing block. -/
theorem c6_counterexample :
    (selectCandidates [wNoPhone, wAli] wEnv.today).length = 2 ∧
    runDelays (mainRun wEnv [wNoPhone, wAli]) = [] ∧
    ([] : List ℚ).length ≠ 2 - 1 :=
  ⟨by decide, by decide, by decide⟩

/-- C6 (amended): on a completed run over pairwise-distinct candidates (the
selected rows always differ in id), the number of pacing sleeps equals the
number of non-skipped candidates among all but the last; every sleep drawn
lies within the configured 6 to 8 second range; and a run over at most one
candidate sleeps never.  Skipped candidates are never followed by a sleep,
and neither is the final candidate. -/
theorem c6_pacing_amended (env : Env) (customers : List Customer) (st : RunState)
    (hnd : (selectCandidates customers env.today).Nodup)
    (hrange : ∀ i, 6 ≤ env.delay i ∧ env.delay i ≤ 8)
    (hrun : mainRun env customers = .completed st) :
    st.delays.length =
      ((selectCandidates customers env.today).dropLast.countP
        fun c => !(full_phone c == "")) ∧
    (∀ q ∈ st.delays, 6 ≤ q ∧ q ≤ 8) ∧
    ((selectCandidates customers env.today).length ≤ 1 → st.delays = []) := by
  rcases mainRun_completed env customers st hrun with ⟨-, -, hcase⟩
  have hlen : st.delays.length =
      ((selectCandidates customers env.today).dropLast.countP
        fun c => !(full_phone c == "")) := by
    rcases hcase with ⟨hnil, hst⟩ | ⟨c, rest, hc, hst⟩
    · rw [hst, hnil]
      simp [initState]
    · have hdel : st.delays =
          delaysFrom env ((c :: rest).getLast (List.cons_ne_nil c rest)) (c :: rest) 0 := by
        rw [hst, runLoop_delays]
        simp [initState]
      rw [hc] at hnd ⊢
      rw [hdel, delaysFrom_countP]
      exact countP_getLast_nodup _ (c :: rest) (List.cons_ne_nil c rest) hnd
  refine ⟨hlen, ?_, ?_⟩
  · intro q hq
    rcases hcase with ⟨hnil, hst⟩ | ⟨c, rest, hc, hst⟩
    · rw [hst] at hq
      simp [initState] at hq
    · have hdel : st.delays =
          delaysFrom env ((c :: rest).getLast (List.cons_ne_nil c rest)) (c :: rest) 0 := by
        rw [hst, runLoop_delays]
        simp [initState]
      rw [hdel] at hq
      obtain ⟨j, rfl⟩ := mem_delaysFrom env _ (c :: rest) 0 q hq
      exact hrange j
  · intro hN
    have h0 : st.delays.length = 0 := by
      rw [hlen, dropLast_of_short _ hN]
      rfl
    exact List.length_eq_zero.mp h0

/-- Witness for C6 (amended) at a concrete two-candidate run with no skips,
which performs exactly one sleep of value 7. -/
theorem c6_witness :
    (runDelays (mainRun wEnv [wAli, ⟨6, "Noor", "Visit", "2026-10-12", some "971", some "509999999"⟩])).length =
      ((selectCandidates [wAli, ⟨6, "Noor", "Visit", "2026-10-12", some "971", some "509999999"⟩]
        wEnv.today).dropLast.countP fun c => !(full_phone c == "")) ∧
    (∀ q ∈ runDelays (mainRun wEnv [wAli, ⟨6, "Noor", "Visit", "2026-10-12", some "971", some "509999999"⟩]),
      6 ≤ q ∧ q ≤ 8) ∧
    ((selectCandidates [wAli, ⟨6, "Noor", "Visit", "2026-10-12", some "971", some "509999999"⟩]
        wEnv.today).length ≤ 1 →
      runDelays (mainRun wEnv [wAli, ⟨6, "Noor", "Visit", "2026-10-12", some "971", some "509999999"⟩]) = []) := by
  have hr : ∀ i : Nat, 6 ≤ wEnv.delay i ∧ wEnv.delay i ≤ 8 := by
    intro i
    constructor
    · show (6 : ℚ) ≤ 7
      norm_num
    · show (7 : ℚ) ≤ 8
      norm_num
  have h := c6_pacing_amended wEnv
    [wAli, ⟨6, "Noor", "Visit", "2026-10-12", some "971", some "509999999"⟩]
    { log := [⟨"Ali", "971501234567", wMsg, "sent", "2026-10-12 03:00:00"⟩,
        ⟨"Noor", "971509999999",
          FIXED_TEMPLATE_render "Noor" "Visit" "2026-10-12" "2026-10-12", "sent",
          "2026-10-12 03:00:00"⟩],
      calls := [⟨"971501234567@c.us", wMsg, "default"⟩,
        ⟨"971509999999@c.us",
          FIXED_TEMPLATE_render "Noor" "Visit" "2026-10-12" "2026-10-12", "default"⟩],
      delays := [7], sent_count := 2, failed_count := 0, skipped_count := 0 }
    (by decide) hr (by decide)
  have hrun : mainRun wEnv [wAli, ⟨6, "Noor", "Visit", "2026-10-12", some "971", some "509999999"⟩] =
      .completed
        { log := [⟨"Ali", "971501234567", wMsg, "sent", "2026-10-12 03:00:00"⟩,
            ⟨"Noor", "971509999999",
              FIXED_TEMPLATE_render "Noor" "Visit" "2026-10-12" "2026-10-12", "sent",
              "2026-10-12 03:00:00"⟩],
          calls := [⟨"971501234567@c.us", wMsg, "default"⟩,
            ⟨"971509999999@c.us",
              FIXED_TEMPLATE_render "Noor" "Visit" "2026-10-12" "2026-10-12", "default"⟩],
          delays := [7], sent_count := 2, failed_count := 0, skipped_count := 0 } := by decide
  rw [hrun]
  exact h

/-- C7: with the database reachable and every INSERT succeeding, a failure
at candidate selection aborts the whole run; a successful selection always
yields a completed run — the gateway-call exception of any candidate is
caught inside send_whatsapp_message rather than propagating — with one log
row per candidate, and any candidate whose gateway call raises gets the
error status built from the exception text while the remaining candidates
are still processed. -/
theorem c7_per_candidate_isolation (env : Env) (customers : List Customer)
    (hdb : env.dbOk = true) (hlog : ∀ i, env.logOk i = true) :
    (env.selectOk = false → mainRun env customers = .selectionFailed) ∧
    (env.selectOk = true → ∃ st, mainRun env customers = .completed st ∧
      st.log = logFrom env (selectCandidates customers env.today) 0 ∧
      st.log.length = (selectCandidates customers env.today).length ∧
      ∀ i c d, ¬ full_phone c = "" → env.gw i = .exn d →
        (entryFor env i c).status = "error: Exception sending message: " ++ d) := by
  constructor
  · intro hsel
    simp [mainRun, hdb, hsel]
  · intro hsel
    have hex : ∃ st, mainRun env customers = .completed st := by
      cases hc : selectCandidates customers env.today with
      | nil => exact ⟨initState, by simp [mainRun, hdb, hsel, hc]⟩
      | cons c rest =>
        exact ⟨runLoop env ((c :: rest).getLast (List.cons_ne_nil c rest)) (c :: rest) 0
          initState, by simp [mainRun, hdb, hsel, hc]⟩
    obtain ⟨st, hst⟩ := hex
    refine ⟨st, hst, mainRun_log env customers st hst, ?_, ?_⟩
    · rw [mainRun_log env customers st hst, logFrom_length env hlog]
    · intro i c d hfp hgw
      simp [entryFor, hfp, send_whatsapp_message, hgw]

/-- Witness for C7 at a concrete run whose first gateway call raises. -/
theorem c7_witness :
    (wEnvExn.selectOk = false → mainRun wEnvExn [wAli, wNoor] = .selectionFailed) ∧
    (wEnvExn.selectOk = true → ∃ st, mainRun wEnvExn [wAli, wNoor] = .completed st ∧
      st.log = logFrom wEnvExn (selectCandidates [wAli, wNoor] wEnvExn.today) 0 ∧
      st.log.length = (selectCandidates [wAli, wNoor] wEnvExn.today).length ∧
      ∀ i c d, ¬ full_phone c = "" → wEnvExn.gw i = .exn d →
        (entryFor wEnvExn i c).status = "error: Exception sending message: " ++ d) :=
  c7_per_candidate_isolation wEnvExn [wAli, wNoor] rfl (fun _ => rfl)

/-- C8 counterexample: for the scenario customer (phone equal to the empty
string, country code NULL) the run makes no gateway call and appends one
row, but that row's status field holds skipped — the text No phone number
available sits in the message field, not the status field. -/
theorem c8_counterexample :
    runCalls (mainRun wEnv [wOmar]) = [] ∧
    runLog (mainRun wEnv [wOmar]) =
      [⟨"Omar", "", "No phone number available", "skipped", "2026-10-12 03:00:00"⟩] ∧
    ("skipped" : String) ≠ "No phone number available" :=
  ⟨by decide, by decide, by decide⟩

/-- C8 (amended): for a candidate with phone_number the empty string and
country_code NULL, the run makes no gateway call and appends exactly one
row whose message field is No phone number available and whose status field
is skipped. -/
theorem c8_no_phone_scenario_amended (env : Env) (c : Customer)
    (hphone : c.phone_number = some "") (hcc : c.country_code = none)
    (hdate : c.visa_expiry_date = env.today)
    (hdb : env.dbOk = true) (hsel : env.selectOk = true) (hlog : env.logOk 0 = true) :
    mainRun env [c] = .completed
      { log := [⟨c.customer_name, "", "No phone number available", "skipped", env.nowTs 0⟩],
        calls := [], delays := [], sent_count := 0, failed_count := 0,
        skipped_count := 1 } := by
  have hfp : full_phone c = "" := by
    rw [full_phone_eq, hcc, hphone]
    rfl
  have hc : selectCandidates [c] env.today = [c] := by
    simp [selectCandidates, hdate]
  simp [mainRun, hdb, hsel, hc, runLoop, hfp, log_send_attempt, hlog, initState]

/-- Witness for C8 (amended) at the concrete scenario customer. -/
theorem c8_witness :
    mainRun wEnv [wOmar] = .completed
      { log := [⟨wOmar.customer_name, "", "No phone number available", "skipped",
          wEnv.nowTs 0⟩],
        calls := [], delays := [], sent_count := 0, failed_count := 0,
        skipped_count := 1 } :=
  c8_no_phone_scenario_amended wEnv wOmar rfl rfl rfl rfl rfl rfl

/-- C9 counterexample: for a phone number stored with a leading tab, the
destination actually used strips the tab (str.strip runs on each component
before concatenation), while the destination the claim prescribes — plus,
space and hyphen removal over the bare concatenation — keeps it; the two
differ. -/
theorem c9_counterexample :
    runCalls (mainRun wEnv [wSara]) =
      [⟨"971501234567@c.us", FIXED_TEMPLATE_render "Sara" "Visit" "2026-10-12" "2026-10-12",
        "default"⟩] ∧
    normalizePhone (orEmpty wSara.country_code ++ orEmpty wSara.phone_number) ++ "@c.us" =
      "971" ++ tabStr ++ "501234567@c.us" ∧
    ("971501234567@c.us" : String) ≠ "971" ++ tabStr ++ "501234567@c.us" :=
  ⟨by decide, by decide, by decide⟩

/-- C9 (amended): every gateway call of a completed run addresses the chat
obtained by trimming surrounding whitespace from each of country_code and
phone_number (empty when NULL), concatenating, removing plus, space and
hyphen characters, and appending the fixed individual-chat suffix; in
particular a customer with country code 971 and phone 501234567 is
addressed as 971501234567. -/
theorem c9_destination_amended (env : Env) (customers : List Customer) (st : RunState)
    (hrun : mainRun env customers = .completed st) :
    (∀ g ∈ st.calls, ∃ c, c ∈ selectCandidates customers env.today ∧
      ¬ full_phone c = "" ∧
      g.chatId = normalizePhone (strip (orEmpty c.country_code) ++
        strip (orEmpty c.phone_number)) ++ "@c.us") ∧
    (∀ c : Customer, c.country_code = some "971" → c.phone_number = some "501234567" →
      chat_id (full_phone c) = "971501234567@c.us") := by
  constructor
  · intro g hg
    rw [mainRun_calls env customers st hrun] at hg
    obtain ⟨j, c, hc, hfp, hg'⟩ := mem_callsFrom env _ 0 g hg
    refine ⟨c, hc, hfp, ?_⟩
    subst hg'
    simp [callFor, chat_id, full_phone_eq]
  · intro c h1 h2
    rw [chat_id, full_phone_eq, h1, h2]
    decide

/-- Witness for C9 (amended) at a concrete benign run. -/
theorem c9_witness :
    (∀ g ∈ wSt.calls, ∃ c, c ∈ selectCandidates [wAli, wOther] wEnv.today ∧
      ¬ full_phone c = "" ∧
      g.chatId = normalizePhone (strip (orEmpty c.country_code) ++
        strip (orEmpty c.phone_number)) ++ "@c.us") ∧
    (∀ c : Customer, c.country_code = some "971" → c.phone_number = some "501234567" →
      chat_id (full_phone c) = "971501234567@c.us") :=
  c9_destination_amended wEnv [wAli, wOther] wSt (by decide)

/-- C10: whatever the INSERT outcomes, a run with the database reachable and
the selection succeeding still completes, with its trace fully described by
logFrom and callsFrom; and a failed INSERT for one candidate contributes no
row at all while processing continues with the remaining candidates, whose
rows are unaffected. -/
theorem c10_log_failure_swallowed (env : Env) (customers : List Customer)
    (hdb : env.dbOk = true) (hsel : env.selectOk = true) :
    (∃ st, mainRun env customers = .completed st ∧
      st.log = logFrom env (selectCandidates customers env.today) 0 ∧
      st.calls = callsFrom env (selectCandidates customers env.today) 0) ∧
    (∀ (i : Nat) (c : Customer) (rest : List Customer), env.logOk i = false →
      logFrom env (c :: rest) i = logFrom env rest (i + 1)) := by
  constructor
  · cases hc : selectCandidates customers env.today with
    | nil =>
      refine ⟨initState, by simp [mainRun, hdb, hsel, hc], ?_, ?_⟩
      · simp [initState, hc, logFrom]
      · simp [initState, hc, callsFrom]
    | cons c rest =>
      refine ⟨runLoop env ((c :: rest).getLast (List.cons_ne_nil c rest)) (c :: rest) 0
        initState, by simp [mainRun, hdb, hsel, hc], ?_, ?_⟩
      · rw [runLoop_log]
        simp [initState]
      · rw [runLoop_calls]
        simp [initState]
  · intro i c rest h
    simp [logFrom, h]

/-- Witness for C10 at a concrete run whose first INSERT fails: the skipped
first candidate's row is absent, the second candidate's row is present. -/
theorem c10_witness :
    (∃ st, mainRun wEnvLogFail [wNoPhone, wAli] = .completed st ∧
      st.log = logFrom wEnvLogFail (selectCandidates [wNoPhone, wAli] wEnvLogFail.today) 0 ∧
      st.calls = callsFrom wEnvLogFail (selectCandidates [wNoPhone, wAli] wEnvLogFail.today) 0) ∧
    (∀ (i : Nat) (c : Customer) (rest : List Customer), wEnvLogFail.logOk i = false →
      logFrom wEnvLogFail (c :: rest) i = logFrom wEnvLogFail rest (i + 1)) :=
  c10_log_failure_swallowed wEnvLogFail [wNoPhone, wAli] rfl rfl
